import Mathlib

/-!
Shallow embedding of `src/transport/other_udp.rs` from the crumb repository.

The module unifies cleartext UDP and DTLS-secured UDP behind one
client/server API.  External effects (the OS socket layer and the OpenSSL
library) are modelled by an explicit environment `NetEnv` that fixes the
outcome of every external call; the Rust functions become pure Lean
functions of that environment.  Machine bytes are modelled as `Nat`,
payloads as `List Nat`, and `std::time::Duration` as nanoseconds (`Nat`).

Rust panics (from `.unwrap()`) are a distinct outcome constructor of
`RustOutcome`, separate from returned `io::Error` values, because several
claims turn on the difference between panicking and returning an error.
-/

namespace Crumb

/-- model of `std::net::SocketAddr`: an IP literal plus a port. -/
structure SocketAddr where
  ip : String
  port : Nat
deriving DecidableEq, Repr

/-- model of `std::time::Duration` as a count of nanoseconds. -/
abbrev Duration := Nat

/-- the `io::ErrorKind` values the embedding distinguishes. -/
inductive IoErrorKind
  | notConnected
  | invalidInput
  | other
  | osFailure
deriving DecidableEq, Repr

/-- model of `std::io::Error`: a kind plus a message. -/
structure IoError where
  kind : IoErrorKind
  msg : String
deriving DecidableEq, Repr

/-- the error value built by the source at a failed DTLS handshake:
`io::Error::new(io::ErrorKind::Other, "DTLS handshake failed")`. -/
def dtlsHandshakeFailed : IoError :=
  { kind := IoErrorKind.other, msg := "DTLS handshake failed" }

/-- the error produced by `UdpSocket::send` on a socket with no connected
peer (POSIX `EDESTADDRREQ`; Rust documents that `send` fails when the
socket is not connected). -/
def notConnectedErr : IoError :=
  { kind := IoErrorKind.notConnected, msg := "destination address required" }

/-- the error produced by `set_read_timeout` / `set_write_timeout` when the
zero duration is passed (documented Rust behaviour). -/
def zeroDurationErr : IoError :=
  { kind := IoErrorKind.invalidInput, msg := "cannot set a zero duration timeout" }

/-- an inbound datagram: payload bytes plus the sender address. -/
structure Datagram where
  payload : List Nat
  src : SocketAddr
deriving DecidableEq, Repr

/-- an outbound datagram: payload bytes plus the destination address. -/
structure OutDatagram where
  payload : List Nat
  dest : SocketAddr
deriving DecidableEq, Repr

/-- environment fixing the outcome of every external call (OS socket layer
and OpenSSL library) made by the transport code. -/
structure NetEnv where
  /-- `UdpSocket::bind addr`: the local address assigned, `none` = bind error. -/
  bind : String → Option SocketAddr
  /-- resolution of the target of `socket.connect addr`; `none` = connect error. -/
  resolve : String → Option SocketAddr
  /-- outcome of `UdpSocket::try_clone`. -/
  cloneOk : Bool
  /-- the `io::Error` carried by a failing OS call (bind, connect, clone). -/
  osError : IoError
  /-- outcome of `SslAcceptor::mozilla_intermediate(SslMethod::dtls())`. -/
  acceptorBuilderOk : Bool
  /-- outcome of `acceptor.set_private_key_file path` per path. -/
  keyLoadOk : String → Bool
  /-- outcome of `acceptor.set_certificate_chain_file path` per path. -/
  certLoadOk : String → Bool
  /-- outcome of `SslConnector::builder(SslMethod::dtls())`. -/
  connectorBuilderOk : Bool
  /-- outcome of `connector.configure().into_ssl name`. -/
  intoSslOk : Bool
  /-- outcome of `SslStream::new`. -/
  sslNewOk : Bool
  /-- outcome of the Connector-role handshake `ssl_stream.connect()`. -/
  connectOk : Bool
  /-- outcome of the Acceptor-role handshake `acceptor.accept stream`, as a
  function of the datagrams readable from the socket it is given. -/
  acceptOk : List Datagram → Bool
  /-- DTLS record encryption applied by the security layer to written
  application data. -/
  encrypt : List Nat → List Nat
  /-- DTLS record decryption applied by the security layer to read records. -/
  decrypt : List Nat → List Nat

/-- state of a `std::net::UdpSocket`: bound local address, the optional
connected peer (set only by `connect`), the two timeout registers, and the
queue of datagrams that have arrived and await a receive call. -/
structure UdpSocketSt where
  localAddr : SocketAddr
  peer : Option SocketAddr
  readTimeout : Option Duration
  writeTimeout : Option Duration
  inbound : List Datagram
deriving DecidableEq, Repr

/-- `UdpSocket::send`: requires a connected peer; on success the whole
buffer leaves as one datagram addressed to that peer.  The socket state is
unchanged by a send. -/
def UdpSocketSt.send (s : UdpSocketSt) (data : List Nat) :
    Except IoError (Nat × OutDatagram) :=
  match s.peer with
  | none => Except.error notConnectedErr
  | some p => Except.ok (data.length, { payload := data, dest := p })

/-- `UdpSocket::recv` into a buffer of `bufLen` bytes: pops the first
pending datagram, truncating to the buffer size; `none` models blocking
forever because no datagram ever arrives. -/
def UdpSocketSt.recv (s : UdpSocketSt) (bufLen : Nat) :
    Option (List Nat × UdpSocketSt) :=
  match s.inbound with
  | [] => none
  | d :: rest => some (d.payload.take bufLen, { s with inbound := rest })

/-- `UdpSocket::set_read_timeout`: errors exactly on the zero duration. -/
def UdpSocketSt.set_read_timeout (s : UdpSocketSt) (d : Option Duration) :
    Except IoError UdpSocketSt :=
  if d = some 0 then Except.error zeroDurationErr
  else Except.ok { s with readTimeout := d }

/-- `UdpSocket::set_write_timeout`: errors exactly on the zero duration. -/
def UdpSocketSt.set_write_timeout (s : UdpSocketSt) (d : Option Duration) :
    Except IoError UdpSocketSt :=
  if d = some 0 then Except.error zeroDurationErr
  else Except.ok { s with writeTimeout := d }

/-- `UdpSocket::peer_addr`: the connected peer, or an error when the
socket was never connected. -/
def UdpSocketSt.peer_addr (s : UdpSocketSt) : Except IoError SocketAddr :=
  match s.peer with
  | none => Except.error notConnectedErr
  | some p => Except.ok p

/-- `impl Write for UdpStream`: `write` is `self.socket.send(buf)`.  The
`UdpStream` wrapper adds no state of its own, so it is identified with the
socket state. -/
def UdpStream.write (s : UdpSocketSt) (buf : List Nat) :
    Except IoError (Nat × OutDatagram) :=
  s.send buf

/-- `impl Read for UdpStream`: `read` is `self.socket.recv(buf)`. -/
def UdpStream.read (s : UdpSocketSt) (bufLen : Nat) :
    Option (List Nat × UdpSocketSt) :=
  s.recv bufLen

/-- `DatagramStream for UdpStream :: set_timeout`: sets the read timeout
first (propagating its error with `?`), then the write timeout. -/
def UdpStream.set_timeout (s : UdpSocketSt) (d : Option Duration) :
    Except IoError UdpSocketSt :=
  match s.set_read_timeout d with
  | Except.error e => Except.error e
  | Except.ok s₁ => s₁.set_write_timeout d

/-- `SslStream<UdpStream>`: the wrapped stream plus the server name fixed
by `into_ssl` on the connector side (empty on the acceptor side, where no
name is configured). -/
structure SslStreamSt where
  inner : UdpSocketSt
  verifiedName : String
deriving DecidableEq, Repr

/-- `Write for SslStream<UdpStream>` (via openssl): application data is
encrypted into a record and written through the inner `UdpStream`. -/
def SslStreamSt.write (env : NetEnv) (ss : SslStreamSt) (buf : List Nat) :
    Except IoError (Nat × OutDatagram) :=
  match UdpStream.write ss.inner (env.encrypt buf) with
  | Except.error e => Except.error e
  | Except.ok (_, dg) => Except.ok (buf.length, dg)

/-- the two implementers of the `DatagramStream` trait object
`Box<dyn DatagramStream + Send>`: `UdpStream` and `SslStream<UdpStream>`. -/
inductive Transport
  | cleartext (s : UdpSocketSt)
  | secured (ss : SslStreamSt)
deriving DecidableEq, Repr

/-- the underlying UDP socket of either transport (`self.socket`, resp.
`self.get_ref().socket`). -/
def Transport.sock : Transport → UdpSocketSt
  | Transport.cleartext s => s
  | Transport.secured ss => ss.inner

/-- dynamic dispatch of `set_timeout`: the `UdpStream` implementation acts
on its socket; the `SslStream` implementation delegates to `get_ref()`. -/
def Transport.set_timeout : Transport → Option Duration → Except IoError Transport
  | Transport.cleartext s, d =>
      (UdpStream.set_timeout s d).map Transport.cleartext
  | Transport.secured ss, d =>
      (UdpStream.set_timeout ss.inner d).map
        (fun s₂ => Transport.secured { ss with inner := s₂ })

/-- dynamic dispatch of `peer_addr`: both implementations end at
`self.socket.peer_addr()`. -/
def Transport.peer_addr : Transport → Except IoError SocketAddr
  | Transport.cleartext s => s.peer_addr
  | Transport.secured ss => ss.inner.peer_addr

/-- outcome of a Rust function that may return `Ok`, return `Err`, or
panic (an `.unwrap()` on an `Err`). -/
inductive RustOutcome (α : Type)
  | ok (a : α)
  | err (e : IoError)
  | panicked (msg : String)
deriving DecidableEq, Repr

/-- model of the `Config` struct of `other_udp.rs`: host, port and the
security flag.  The struct carries no certificate or key paths. -/
structure Config where
  host : String
  port : Nat
  use_dtls : Bool
deriving DecidableEq, Repr

/-- model of the `Client` struct: the boxed transport. -/
structure Client where
  transport : Transport
deriving DecidableEq, Repr

/-- `Client::init`: bind an ephemeral socket at `[::]:0`, connect it to
`host:port`; with the security flag, build a DTLS connector, fix the
verified name `"localhost"` via `into_ssl`, clone the socket into an
`SslStream` and run the Connector-role handshake; a handshake failure
returns the `"DTLS handshake failed"` error and no Client. -/
def Client.init (env : NetEnv) (conf : Config) : RustOutcome Client :=
  let addr := conf.host ++ ":" ++ toString conf.port
  match env.bind "[::]:0" with
  | none => RustOutcome.err env.osError
  | some la =>
    match env.resolve addr with
    | none => RustOutcome.err env.osError
    | some pa =>
      let socket : UdpSocketSt :=
        { localAddr := la, peer := some pa, readTimeout := none,
          writeTimeout := none, inbound := [] }
      if conf.use_dtls then
        if env.connectorBuilderOk then
          if env.intoSslOk then
            if env.cloneOk then
              if env.sslNewOk then
                if env.connectOk then
                  RustOutcome.ok
                    { transport := Transport.secured
                        { inner := socket, verifiedName := "localhost" } }
                else RustOutcome.err dtlsHandshakeFailed
              else RustOutcome.panicked "SslStream new failed"
            else RustOutcome.err env.osError
          else RustOutcome.panicked "into_ssl failed"
        else RustOutcome.panicked "SslConnector builder failed"
      else RustOutcome.ok { transport := Transport.cleartext socket }

/-- `Client::send`: `self.transport.write(data)`. -/
def Client.send (env : NetEnv) (c : Client) (data : List Nat) :
    Except IoError (Nat × OutDatagram) :=
  match c.transport with
  | Transport.cleartext s => UdpStream.write s data
  | Transport.secured ss => ss.write env data

/-- `Client::receive`: `self.transport.read(buffer)`; returns the bytes
read and the client after the receive, `none` when the read blocks
forever.  The secured side reads one record and decrypts it. -/
def Client.receive (env : NetEnv) (c : Client) (bufLen : Nat) :
    Option (List Nat × Client) :=
  match c.transport with
  | Transport.cleartext s =>
      match UdpStream.read s bufLen with
      | none => none
      | some (bytes, s₂) => some (bytes, { transport := Transport.cleartext s₂ })
  | Transport.secured ss =>
      match UdpStream.read ss.inner bufLen with
      | none => none
      | some (bytes, s₂) =>
          some (env.decrypt bytes,
            { transport := Transport.secured { ss with inner := s₂ } })

/-- model of the `SslAcceptor` after a successful `Server::init` build: it
records which key and certificate paths it was built from. -/
structure SslAcceptorSt where
  keyPath : String
  certPath : String
deriving DecidableEq, Repr

/-- model of the `Server` struct: the listening socket plus the optional
DTLS acceptor. -/
structure Server where
  socket : UdpSocketSt
  dtls_acceptor : Option SslAcceptorSt
deriving DecidableEq, Repr

/-- `Server::init`: bind the wildcard address at the configured port; with
the security flag, build the acceptor with `.unwrap()` calls loading the
fixed paths `"key.pem"` and `"cert.pem"` — a load failure panics rather
than returning an error.  The listening socket is never connected. -/
def Server.init (env : NetEnv) (conf : Config) : RustOutcome Server :=
  let addr := "[::]:" ++ toString conf.port
  match env.bind addr with
  | none => RustOutcome.err env.osError
  | some la =>
    let socket : UdpSocketSt :=
      { localAddr := la, peer := none, readTimeout := none,
        writeTimeout := none, inbound := [] }
    if conf.use_dtls then
      if env.acceptorBuilderOk then
        if env.keyLoadOk "key.pem" then
          if env.certLoadOk "cert.pem" then
            RustOutcome.ok
              { socket := socket,
                dtls_acceptor := some { keyPath := "key.pem", certPath := "cert.pem" } }
          else RustOutcome.panicked "set_certificate_chain_file failed"
        else RustOutcome.panicked "set_private_key_file failed"
      else RustOutcome.panicked "SslAcceptor mozilla_intermediate failed"
    else RustOutcome.ok { socket := socket, dtls_acceptor := none }

/-- outcome of one `Server::handle_client` call. -/
inductive HCOutcome
  | ok
  | err (e : IoError)
  | blocked
deriving DecidableEq, Repr

/-- observable record of one `Server::handle_client` call:
`captured` is the first datagram's payload as read into the 4096-byte
buffer, together with the sender address; `handshakeInput` is the list of
datagrams readable by the Acceptor-role handshake (empty when no handshake
ran); `echoAttempt` is the byte sequence passed to `write_all` (none when
that point is never reached); `transmitted` is the list of datagrams the
call actually put on the wire through `write_all`. -/
structure HCResult where
  outcome : HCOutcome
  captured : Option (List Nat × SocketAddr)
  handshakeInput : List Datagram
  echoAttempt : Option (List Nat)
  transmitted : List OutDatagram
deriving DecidableEq, Repr

/-- `write_all` over a `UdpStream`: a single `write` sends the whole
buffer, so one call settles it. -/
def udpWriteAll (s : UdpSocketSt) (data : List Nat) :
    Except IoError (List OutDatagram) :=
  match UdpStream.write s data with
  | Except.error e => Except.error e
  | Except.ok (_, dg) => Except.ok [dg]

/-- `write_all` over an `SslStream<UdpStream>`: the record produced by
encrypting the buffer is written through the inner stream. -/
def sslWriteAll (env : NetEnv) (inner : UdpSocketSt) (data : List Nat) :
    Except IoError (List OutDatagram) :=
  match UdpStream.write inner (env.encrypt data) with
  | Except.error e => Except.error e
  | Except.ok (_, dg) => Except.ok [dg]

/-- `Server::handle_client`: `recv_from` into a 4096-byte buffer blocks for
one datagram; with an acceptor, the listening socket is cloned
(`try_clone`, sharing the remaining queue and the absent peer) and the
Acceptor-role handshake runs over the clone — the already-captured first
payload is not handed to it; on handshake failure the `"DTLS handshake
failed"` error returns before any write; otherwise `write_all` echoes the
captured bytes through the transport built over the clone. -/
def Server.handle_client (env : NetEnv) (srv : Server) : HCResult :=
  match srv.socket.inbound with
  | [] =>
      { outcome := HCOutcome.blocked, captured := none, handshakeInput := [],
        echoAttempt := none, transmitted := [] }
  | d :: rest =>
    let captured := d.payload.take 4096
    let clientAddr := d.src
    match srv.dtls_acceptor with
    | some _ =>
        if env.cloneOk then
          let cloned : UdpSocketSt := { srv.socket with inbound := rest }
          if env.acceptOk cloned.inbound then
            match sslWriteAll env cloned captured with
            | Except.ok dgs =>
                { outcome := HCOutcome.ok, captured := some (captured, clientAddr),
                  handshakeInput := cloned.inbound, echoAttempt := some captured,
                  transmitted := dgs }
            | Except.error e =>
                { outcome := HCOutcome.err e, captured := some (captured, clientAddr),
                  handshakeInput := cloned.inbound, echoAttempt := some captured,
                  transmitted := [] }
          else
            { outcome := HCOutcome.err dtlsHandshakeFailed,
              captured := some (captured, clientAddr),
              handshakeInput := cloned.inbound, echoAttempt := none,
              transmitted := [] }
        else
          { outcome := HCOutcome.err env.osError,
            captured := some (captured, clientAddr), handshakeInput := [],
            echoAttempt := none, transmitted := [] }
    | none =>
        if env.cloneOk then
          let cloned : UdpSocketSt := { srv.socket with inbound := rest }
          match udpWriteAll cloned captured with
          | Except.ok dgs =>
              { outcome := HCOutcome.ok, captured := some (captured, clientAddr),
                handshakeInput := [], echoAttempt := some captured,
                transmitted := dgs }
          | Except.error e =>
              { outcome := HCOutcome.err e, captured := some (captured, clientAddr),
                handshakeInput := [], echoAttempt := some captured,
                transmitted := [] }
        else
          { outcome := HCOutcome.err env.osError,
            captured := some (captured, clientAddr), handshakeInput := [],
            echoAttempt := none, transmitted := [] }

/-- one full cleartext exchange, composing the source operations with
network delivery as glue: both sides initialize from `conf`, the client
sends `payload`, the datagram is delivered to the server, the server runs
`handle_client`, every datagram the server transmitted to the client's
address is delivered back, and the client performs one receive into a
buffer of `bufLen` bytes.  The result pairs the server's `HCResult` with
the bytes the client observed (`none` when its receive blocks forever). -/
def cleartextExchange (env : NetEnv) (conf : Config) (payload : List Nat)
    (bufLen : Nat) : Option (HCResult × Option (List Nat)) :=
  match Server.init env conf with
  | RustOutcome.ok srv =>
    match Client.init env conf with
    | RustOutcome.ok cl =>
      match Client.send env cl payload with
      | Except.error _ => none
      | Except.ok (_, outDg) =>
        let clientAddr := (Client.transport cl).sock.localAddr
        let srv₂ : Server :=
          { srv with socket :=
              { srv.socket with inbound := [{ payload := outDg.payload, src := clientAddr }] } }
        let r := Server.handle_client env srv₂
        let echoes := r.transmitted.filter (fun dg => dg.dest = clientAddr)
        let cl₂ : Client :=
          match cl.transport with
          | Transport.cleartext s =>
              { transport := Transport.cleartext
                  { s with inbound := (echoes.map
                      (fun dg => { payload := dg.payload, src := srv.socket.localAddr })) } }
          | Transport.secured ss => { transport := Transport.secured ss }
        match Client.receive env cl₂ bufLen with
        | none => some (r, none)
        | some (bytes, _) => some (r, some bytes)
    | _ => none
  | _ => none

/-- discriminator: did the outcome return an error value. -/
def RustOutcome.isErr {α : Type} : RustOutcome α → Bool
  | RustOutcome.err _ => true
  | _ => false

/-- discriminator: did the outcome return a value. -/
def RustOutcome.isOk {α : Type} : RustOutcome α → Bool
  | RustOutcome.ok _ => true
  | _ => false

/-- operations reachable on a constructed Client through its public
interface (send, receive, set_timeout on the stream). -/
inductive ClientOp
  | send (data : List Nat)
  | receive (bufLen : Nat)
  | setTimeout (d : Option Duration)

/-- state reached by one public operation on a Client.  A send leaves the
socket state unchanged; a blocked receive or a failed set_timeout leaves
the state as it was. -/
def Client.applyOp (env : NetEnv) (c : Client) : ClientOp → Client
  | ClientOp.send _ => c
  | ClientOp.receive n =>
      match Client.receive env c n with
      | none => c
      | some (_, c₂) => c₂
  | ClientOp.setTimeout d =>
      match Transport.set_timeout c.transport d with
      | Except.error _ => c
      | Except.ok t => { transport := t }

/-- state reached by a sequence of public operations on a Client. -/
def Client.applyOps (env : NetEnv) (c : Client) (ops : List ClientOp) : Client :=
  ops.foldl (Client.applyOp env) c

/-- ephemeral local address the environment below assigns to the client. -/
def addrClient : SocketAddr := { ip := "192.0.2.1", port := 40000 }

/-- wildcard address the environment below assigns to the listening server. -/
def addrServer : SocketAddr := { ip := "[::]", port := 8080 }

/-- resolved peer address for the configured host and port below. -/
def addrPeer : SocketAddr := { ip := "127.0.0.1", port := 8080 }

/-- the bytes of the test payload "Hello, Server!". -/
def msgBytes : List Nat := [72, 101, 108, 108, 111, 44, 32, 83, 101, 114, 118, 101, 114, 33]

/-- concrete environment in which every external call succeeds: binds are
assigned, resolution succeeds, clones succeed, certificate material loads,
and both handshake roles complete. -/
def envBase : NetEnv :=
  { bind := fun a => if a = "[::]:0" then some addrClient else some addrServer,
    resolve := fun _ => some addrPeer,
    cloneOk := true,
    osError := { kind := IoErrorKind.osFailure, msg := "os error" },
    acceptorBuilderOk := true,
    keyLoadOk := fun _ => true,
    certLoadOk := fun _ => true,
    connectorBuilderOk := true,
    intoSslOk := true,
    sslNewOk := true,
    connectOk := true,
    acceptOk := fun _ => true,
    encrypt := fun bs => bs,
    decrypt := fun bs => bs }

/-- cleartext configuration matching the repository's test config. -/
def confClear : Config := { host := "127.0.0.1", port := 8080, use_dtls := false }

/-- secured configuration matching the repository's DTLS test config. -/
def confSec : Config := { host := "127.0.0.1", port := 8081, use_dtls := true }

/-- environment in which the Connector-role handshake fails. -/
def envHF : NetEnv := { envBase with connectOk := false }

/-- environment in which the Acceptor-role handshake fails. -/
def envAF : NetEnv := { envBase with acceptOk := fun _ => false }

/-- environment in which loading the private key file fails. -/
def envKeyFail : NetEnv := { envBase with keyLoadOk := fun _ => false }

/-- cleartext server as produced by `Server.init`, with one pending
datagram carrying `msgBytes` from the client address. -/
def srvClear : Server :=
  { socket := { localAddr := addrServer, peer := none, readTimeout := none,
                writeTimeout := none,
                inbound := [{ payload := msgBytes, src := addrClient }] },
    dtls_acceptor := none }

/-- secured server as produced by `Server.init`, with one pending datagram
carrying `msgBytes` from the client address. -/
def srvSec : Server :=
  { socket := { localAddr := addrServer, peer := none, readTimeout := none,
                writeTimeout := none,
                inbound := [{ payload := msgBytes, src := addrClient }] },
    dtls_acceptor := some { keyPath := "key.pem", certPath := "cert.pem" } }

/-- secured server with two pending datagrams, to watch which of them the
handshake is fed. -/
def srvSecTwo : Server :=
  { socket := { localAddr := addrServer, peer := none, readTimeout := none,
                writeTimeout := none,
                inbound := [{ payload := msgBytes, src := addrClient },
                            { payload := [9, 9], src := addrClient }] },
    dtls_acceptor := some { keyPath := "key.pem", certPath := "cert.pem" } }

/-- the Client value `Client.init envBase confClear` constructs. -/
def clientClear : Client :=
  { transport := Transport.cleartext
      { localAddr := addrClient, peer := some addrPeer, readTimeout := none,
        writeTimeout := none, inbound := [] } }

/-- a connected cleartext socket used to exercise `set_timeout`. -/
def sockConn : UdpSocketSt :=
  { localAddr := addrClient, peer := some addrPeer, readTimeout := none,
    writeTimeout := none, inbound := [] }

/-- the server name a transport verifies its peer under, when secured. -/
def Transport.verifiedNameOf : Transport → Option String
  | Transport.cleartext _ => none
  | Transport.secured ss => some ss.verifiedName

/-- the Client value `Client.init envBase confSec` constructs. -/
def clientSec : Client :=
  { transport := Transport.secured
      { inner := { localAddr := addrClient, peer := some addrPeer,
                   readTimeout := none, writeTimeout := none, inbound := [] },
        verifiedName := "localhost" } }

/-! ## Helper lemmas -/

theorem UdpStream.set_timeout_ok (s : UdpSocketSt) (d : Option Duration)
    (s₂ : UdpSocketSt) (h : UdpStream.set_timeout s d = Except.ok s₂) :
    s₂ = { s with readTimeout := d, writeTimeout := d } := by
  unfold UdpStream.set_timeout UdpSocketSt.set_read_timeout
    UdpSocketSt.set_write_timeout at h
  by_cases hd : d = some 0
  · simp [hd] at h
  · simp [hd] at h
    exact h.symm

theorem UdpStream.set_timeout_none_ok (s : UdpSocketSt) :
    UdpStream.set_timeout s none =
      Except.ok { s with readTimeout := none, writeTimeout := none } := by
  unfold UdpStream.set_timeout UdpSocketSt.set_read_timeout
    UdpSocketSt.set_write_timeout
  simp

theorem Transport.peer_addr_sock (t : Transport) :
    Transport.peer_addr t = UdpSocketSt.peer_addr (Transport.sock t) := by
  cases t <;> rfl

theorem Client.applyOp_peer (env : NetEnv) (c : Client) (op : ClientOp) :
    (Transport.sock (Client.applyOp env c op).transport).peer
      = (Transport.sock c.transport).peer := by
  obtain ⟨t⟩ := c
  cases op with
  | send data => rfl
  | receive n =>
      cases t with
      | cleartext s =>
          obtain ⟨la, pe, rt, wt, inb⟩ := s
          cases inb with
          | nil => rfl
          | cons d rest => rfl
      | secured ss =>
          obtain ⟨s, name⟩ := ss
          obtain ⟨la, pe, rt, wt, inb⟩ := s
          cases inb with
          | nil => rfl
          | cons d rest => rfl
  | setTimeout d =>
      cases t with
      | cleartext s =>
          cases d with
          | none => rfl
          | some n => cases n with
            | zero => rfl
            | succ k => rfl
      | secured ss =>
          cases d with
          | none => rfl
          | some n => cases n with
            | zero => rfl
            | succ k => rfl

theorem Client.applyOps_peer (env : NetEnv) (c : Client) (ops : List ClientOp) :
    (Transport.sock (Client.applyOps env c ops).transport).peer
      = (Transport.sock c.transport).peer := by
  induction ops generalizing c with
  | nil => rfl
  | cons op rest ih =>
      calc (Transport.sock (Client.applyOps env c (op :: rest)).transport).peer
          = (Transport.sock (Client.applyOps env (Client.applyOp env c op) rest).transport).peer := rfl
        _ = (Transport.sock (Client.applyOp env c op).transport).peer := ih _
        _ = (Transport.sock c.transport).peer := Client.applyOp_peer env c op

/-! ## Claim theorems -/

/-- C7: for every stream (Cleartext or Secured) and every duration, a
successful `set_timeout (some d)` leaves the deadline `d` set on both the
read and the write direction of the underlying socket, and
`set_timeout none` always succeeds and removes the deadline from both
directions. -/
theorem set_timeout_both_directions :
    (∀ (t : Transport) (o : Option Duration) (t₂ : Transport),
        Transport.set_timeout t o = Except.ok t₂ →
        (Transport.sock t₂).readTimeout = o ∧ (Transport.sock t₂).writeTimeout = o) ∧
    (∀ t : Transport, ∃ t₂, Transport.set_timeout t none = Except.ok t₂ ∧
        (Transport.sock t₂).readTimeout = none ∧
        (Transport.sock t₂).writeTimeout = none) := by
  constructor
  · intro t o t₂ h
    cases t with
    | cleartext s =>
        have h₀ : Except.map Transport.cleartext (UdpStream.set_timeout s o)
            = Except.ok t₂ := h
        cases hs : UdpStream.set_timeout s o with
        | error e => rw [hs] at h₀; exact absurd h₀ (by simp [Except.map])
        | ok s₂ =>
            rw [hs] at h₀
            simp [Except.map] at h₀
            rw [UdpStream.set_timeout_ok s o s₂ hs] at h₀
            rw [← h₀]
            exact ⟨rfl, rfl⟩
    | secured ss =>
        have h₀ : Except.map
            (fun s₂ => Transport.secured { ss with inner := s₂ })
            (UdpStream.set_timeout ss.inner o) = Except.ok t₂ := h
        cases hs : UdpStream.set_timeout ss.inner o with
        | error e => rw [hs] at h₀; exact absurd h₀ (by simp [Except.map])
        | ok s₂ =>
            rw [hs] at h₀
            simp [Except.map] at h₀
            rw [UdpStream.set_timeout_ok ss.inner o s₂ hs] at h₀
            rw [← h₀]
            exact ⟨rfl, rfl⟩
  · intro t
    cases t with
    | cleartext s =>
        exact ⟨Transport.cleartext { s with readTimeout := none, writeTimeout := none },
          by simp [Transport.set_timeout, UdpStream.set_timeout_none_ok, Except.map], rfl, rfl⟩
    | secured ss =>
        exact ⟨Transport.secured
            { ss with inner := { ss.inner with readTimeout := none, writeTimeout := none } },
          by simp [Transport.set_timeout, UdpStream.set_timeout_none_ok, Except.map], rfl, rfl⟩

/-- witness for C7: the theorem applied to a concrete connected cleartext
stream and the 5-nanosecond deadline. -/
theorem set_timeout_both_directions_witness :
    (Transport.sock (Transport.cleartext
        { sockConn with readTimeout := some 5, writeTimeout := some 5 })).readTimeout = some 5 ∧
    (Transport.sock (Transport.cleartext
        { sockConn with readTimeout := some 5, writeTimeout := some 5 })).writeTimeout = some 5 :=
  set_timeout_both_directions.1 (Transport.cleartext sockConn) (some 5)
    (Transport.cleartext { sockConn with readTimeout := some 5, writeTimeout := some 5 })
    (by rfl)

/-- C5: with the security flag set, when the Connector-role handshake run
by `Client.init` fails (all steps before it succeeding), `Client.init`
returns the `"DTLS handshake failed"` error and no Client value is
produced. -/
theorem client_init_handshake_failure (env : NetEnv) (conf : Config)
    (hd : conf.use_dtls = true)
    (la : SocketAddr) (hb : env.bind "[::]:0" = some la)
    (pa : SocketAddr)
    (hr : env.resolve (conf.host ++ ":" ++ toString conf.port) = some pa)
    (h₁ : env.connectorBuilderOk = true) (h₂ : env.intoSslOk = true)
    (h₃ : env.cloneOk = true) (h₄ : env.sslNewOk = true)
    (h₅ : env.connectOk = false) :
    Client.init env conf = RustOutcome.err dtlsHandshakeFailed ∧
    ∀ c : Client, Client.init env conf ≠ RustOutcome.ok c := by
  have hmain : Client.init env conf = RustOutcome.err dtlsHandshakeFailed := by
    simp only [Client.init]
    rw [hb, hr]
    simp [hd, h₁, h₂, h₃, h₄, h₅]
  exact ⟨hmain, fun c hc => by rw [hmain] at hc; exact RustOutcome.noConfusion hc⟩

/-- witness for C5: a failing handshake against the secured test config. -/
theorem client_init_handshake_failure_witness :
    Client.init envHF confSec = RustOutcome.err dtlsHandshakeFailed :=
  (client_init_handshake_failure envHF confSec rfl addrClient rfl addrPeer rfl
    rfl rfl rfl rfl rfl).1

/-- C9: with the security flag set, a successfully constructed Client
always carries a Secured transport whose verified server name is the
constant `"localhost"`, whatever `conf.host` is. -/
theorem client_init_verifies_localhost (env : NetEnv) (conf : Config) (c : Client)
    (hd : conf.use_dtls = true) (h : Client.init env conf = RustOutcome.ok c) :
    Transport.verifiedNameOf c.transport = some "localhost" := by
  simp only [Client.init] at h
  cases hb : env.bind "[::]:0" with
  | none => rw [hb] at h; simp at h
  | some la =>
    rw [hb] at h
    cases hr : env.resolve (conf.host ++ ":" ++ toString conf.port) with
    | none => rw [hr] at h; simp at h
    | some pa =>
      rw [hr] at h
      rw [hd] at h
      cases h₁ : env.connectorBuilderOk <;> rw [h₁] at h <;> simp at h
      cases h₂ : env.intoSslOk <;> rw [h₂] at h <;> simp at h
      cases h₃ : env.cloneOk <;> rw [h₃] at h <;> simp at h
      cases h₄ : env.sslNewOk <;> rw [h₄] at h <;> simp at h
      cases h₅ : env.connectOk <;> rw [h₅] at h <;> simp at h
      rw [← h]
      rfl

/-- witness for C9: a successful secured construction in the base
environment verifies the name "localhost" even though the configured host
is "127.0.0.1". -/
theorem client_init_verifies_localhost_witness :
    Transport.verifiedNameOf (Client.transport clientSec) = some "localhost" :=
  client_init_verifies_localhost envBase confSec clientSec rfl rfl

theorem UdpSocketSt.peer_addr_some (s : UdpSocketSt) (a : SocketAddr)
    (h : s.peer = some a) : s.peer_addr = Except.ok a := by
  simp [UdpSocketSt.peer_addr, h]

/-- C8: a Client successfully constructed from a config has the resolved
address of `host:port` as its peer address, and that peer address is
unchanged by any sequence of public operations on the Client. -/
theorem client_peer_addr_resolved (env : NetEnv) (conf : Config) (c : Client)
    (h : Client.init env conf = RustOutcome.ok c) :
    ∃ a : SocketAddr,
      env.resolve (conf.host ++ ":" ++ toString conf.port) = some a ∧
      Transport.peer_addr c.transport = Except.ok a ∧
      ∀ ops : List ClientOp,
        Transport.peer_addr (Client.applyOps env c ops).transport = Except.ok a := by
  simp only [Client.init] at h
  cases hb : env.bind "[::]:0" with
  | none => rw [hb] at h; simp at h
  | some la =>
    rw [hb] at h
    cases hr : env.resolve (conf.host ++ ":" ++ toString conf.port) with
    | none => rw [hr] at h; simp at h
    | some pa =>
      rw [hr] at h
      have hpeer : (Transport.sock c.transport).peer = some pa := by
        cases hd : conf.use_dtls <;> rw [hd] at h
        · simp at h; rw [← h]; rfl
        · cases h₁ : env.connectorBuilderOk <;> rw [h₁] at h <;> simp at h
          cases h₂ : env.intoSslOk <;> rw [h₂] at h <;> simp at h
          cases h₃ : env.cloneOk <;> rw [h₃] at h <;> simp at h
          cases h₄ : env.sslNewOk <;> rw [h₄] at h <;> simp at h
          cases h₅ : env.connectOk <;> rw [h₅] at h <;> simp at h
          rw [← h]; rfl
      refine ⟨pa, rfl, ?_, ?_⟩
      · rw [Transport.peer_addr_sock]
        exact UdpSocketSt.peer_addr_some _ pa hpeer
      · intro ops
        rw [Transport.peer_addr_sock]
        refine UdpSocketSt.peer_addr_some _ pa ?_
        rw [Client.applyOps_peer]
        exact hpeer

/-- witness for C8: the cleartext test client's peer address equals the
resolved address, before and after a send and a set_timeout. -/
theorem client_peer_addr_resolved_witness :
    Transport.peer_addr (Client.transport clientClear) = Except.ok addrPeer ∧
    Transport.peer_addr (Client.applyOps envBase clientClear
      [ClientOp.send msgBytes, ClientOp.setTimeout (some 5)]).transport
      = Except.ok addrPeer := by
  obtain ⟨a, ha, hpa, hops⟩ :=
    client_peer_addr_resolved envBase confClear clientClear rfl
  have hr : envBase.resolve (confClear.host ++ ":" ++ toString confClear.port)
      = some addrPeer := rfl
  have haddr : a = addrPeer := Option.some.inj (ha.symm.trans hr)
  rw [← haddr]
  exact ⟨hpa, hops _⟩

theorem udpWriteAll_unconnected (s : UdpSocketSt) (data : List Nat)
    (h : s.peer = none) : udpWriteAll s data = Except.error notConnectedErr := by
  simp [udpWriteAll, UdpStream.write, UdpSocketSt.send, h]

theorem sslWriteAll_unconnected (env : NetEnv) (s : UdpSocketSt) (data : List Nat)
    (h : s.peer = none) : sslWriteAll env s data = Except.error notConnectedErr := by
  simp [sslWriteAll, UdpStream.write, UdpSocketSt.send, h]

theorem Server.init_ok_peer_none (env : NetEnv) (conf : Config) (srv : Server)
    (h : Server.init env conf = RustOutcome.ok srv) : srv.socket.peer = none := by
  simp only [Server.init] at h
  cases hb : env.bind ("[::]:" ++ toString conf.port) with
  | none => rw [hb] at h; simp at h
  | some la =>
    rw [hb] at h
    cases hd : conf.use_dtls <;> rw [hd] at h
    · simp at h; rw [← h]
    · cases h₁ : env.acceptorBuilderOk <;> rw [h₁] at h <;> simp at h
      cases h₂ : env.keyLoadOk "key.pem" <;> rw [h₂] at h <;> simp at h
      cases h₃ : env.certLoadOk "cert.pem" <;> rw [h₃] at h <;> simp at h
      rw [← h]

/-- over a never-connected listening socket, `handle_client` transmits no
datagram through its echo write and never returns `Ok`: the reply path
uses `send` on a clone of the unconnected socket, which always fails. -/
theorem handle_client_unconnected_no_transmission (env : NetEnv) (srv : Server)
    (hpeer : srv.socket.peer = none) :
    (Server.handle_client env srv).transmitted = [] ∧
    (Server.handle_client env srv).outcome ≠ HCOutcome.ok := by
  have hssl : ∀ (rest : List Datagram) (data : List Nat),
      sslWriteAll env { srv.socket with inbound := rest } data
        = Except.error notConnectedErr :=
    fun _ data => sslWriteAll_unconnected env _ data hpeer
  have hudp : ∀ (rest : List Datagram) (data : List Nat),
      udpWriteAll { srv.socket with inbound := rest } data
        = Except.error notConnectedErr :=
    fun _ data => udpWriteAll_unconnected _ data hpeer
  simp only [Server.handle_client]
  cases hin : srv.socket.inbound with
  | nil => exact ⟨rfl, by simp⟩
  | cons d rest =>
    dsimp only
    cases hacc : srv.dtls_acceptor with
    | some acc =>
        cases hc : env.cloneOk
        · simp
        · cases ha : env.acceptOk rest
          · simp
          · simp [hssl]
    | none =>
        cases hc : env.cloneOk
        · simp
        · simp [hudp]

/-- C6: in secured mode, when the Acceptor-role handshake inside
`handle_client` fails, the call returns the `"DTLS handshake failed"`
error, the echo write is never attempted, and nothing is transmitted. -/
theorem handle_client_handshake_failed_no_response (env : NetEnv) (srv : Server)
    (acc : SslAcceptorSt) (hacc : srv.dtls_acceptor = some acc)
    (d : Datagram) (rest : List Datagram) (hin : srv.socket.inbound = d :: rest)
    (hclone : env.cloneOk = true) (hfail : env.acceptOk rest = false) :
    Server.handle_client env srv =
      { outcome := HCOutcome.err dtlsHandshakeFailed,
        captured := some (d.payload.take 4096, d.src),
        handshakeInput := rest, echoAttempt := none, transmitted := [] } := by
  simp only [Server.handle_client]
  rw [hin, hacc]
  dsimp only
  rw [hclone]
  simp [hfail]

/-- witness for C6: a failing Acceptor handshake on the secured test
server returns the handshake error and writes nothing. -/
theorem handle_client_handshake_failed_no_response_witness :
    Server.handle_client envAF srvSec =
      { outcome := HCOutcome.err dtlsHandshakeFailed,
        captured := some (msgBytes.take 4096, addrClient),
        handshakeInput := [], echoAttempt := none, transmitted := [] } :=
  handle_client_handshake_failed_no_response envAF srvSec
    { keyPath := "key.pem", certPath := "cert.pem" } rfl
    { payload := msgBytes, src := addrClient } [] rfl rfl rfl

/-- every branch of `handle_client` on a nonempty queue captures the first
payload truncated to 4096 bytes, and any echo write carries exactly those
captured bytes. -/
theorem handle_client_captured_echo (env : NetEnv) (srv : Server)
    (d : Datagram) (rest : List Datagram) (hin : srv.socket.inbound = d :: rest) :
    (Server.handle_client env srv).captured = some (d.payload.take 4096, d.src) ∧
    ((Server.handle_client env srv).echoAttempt = none ∨
     (Server.handle_client env srv).echoAttempt = some (d.payload.take 4096)) := by
  simp only [Server.handle_client]
  rw [hin]
  dsimp only
  split
  · split
    · split
      · split
        · exact ⟨rfl, Or.inr rfl⟩
        · exact ⟨rfl, Or.inr rfl⟩
      · exact ⟨rfl, Or.inl rfl⟩
    · exact ⟨rfl, Or.inl rfl⟩
  · split
    · split
      · exact ⟨rfl, Or.inr rfl⟩
      · exact ⟨rfl, Or.inr rfl⟩
    · exact ⟨rfl, Or.inl rfl⟩

/-- C10: `handle_client` reads into a fixed 4096-byte buffer: the captured
payload is the first datagram's bytes truncated to 4096, never longer, and
any echoed response carries those bytes, hence never exceeds 4096 bytes. -/
theorem handle_client_buffer_4096 (env : NetEnv) (srv : Server)
    (d : Datagram) (rest : List Datagram) (hin : srv.socket.inbound = d :: rest) :
    (Server.handle_client env srv).captured = some (d.payload.take 4096, d.src) ∧
    (∀ p a, (Server.handle_client env srv).captured = some (p, a) →
      p.length ≤ 4096) ∧
    ∀ bs, (Server.handle_client env srv).echoAttempt = some bs →
      bs = d.payload.take 4096 ∧ bs.length ≤ 4096 := by
  obtain ⟨hcap, hecho⟩ := handle_client_captured_echo env srv d rest hin
  have hlen : (d.payload.take 4096).length ≤ 4096 := by
    rw [List.length_take]
    exact Nat.min_le_left _ _
  refine ⟨hcap, ?_, ?_⟩
  · intro p a hpa
    rw [hcap] at hpa
    have hp : d.payload.take 4096 = p := by
      have := Option.some.inj hpa
      exact congrArg Prod.fst this
    rw [← hp]
    exact hlen
  · intro bs hbs
    cases hecho with
    | inl hnone => rw [hnone] at hbs; exact Option.noConfusion hbs
    | inr hsome =>
        rw [hsome] at hbs
        have hb := Option.some.inj hbs
        rw [← hb]
        exact ⟨rfl, hlen⟩

/-- witness for C10: the cleartext test server captures the 14-byte test
payload truncated to 4096 bytes. -/
theorem handle_client_buffer_4096_witness :
    (Server.handle_client envBase srvClear).captured
      = some (msgBytes.take 4096, addrClient) :=
  (handle_client_buffer_4096 envBase srvClear
    { payload := msgBytes, src := addrClient } [] rfl).1

/-- counterexample to C4: on the secured test server the first datagram's
payload is captured, yet the handshake is fed no datagram at all — the
captured payload is consumed before the handshake and never handed to it. -/
theorem handle_client_first_payload_discarded_cex :
    Server.handle_client envBase srvSec =
      { outcome := HCOutcome.err notConnectedErr,
        captured := some (msgBytes, addrClient),
        handshakeInput := [], echoAttempt := some msgBytes,
        transmitted := [] } := rfl

/-- C4 as amended: in secured mode the Acceptor-role handshake is run over
a clone of the listening socket and sees only the datagrams that arrive
after the first one; the captured first payload is not fed into the
handshake and is retained only for the echo write. -/
theorem handle_client_handshake_after_first (env : NetEnv) (srv : Server)
    (acc : SslAcceptorSt) (hacc : srv.dtls_acceptor = some acc)
    (d : Datagram) (rest : List Datagram) (hin : srv.socket.inbound = d :: rest)
    (hclone : env.cloneOk = true) :
    (Server.handle_client env srv).handshakeInput = rest ∧
    (Server.handle_client env srv).captured = some (d.payload.take 4096, d.src) := by
  simp only [Server.handle_client]
  rw [hin, hacc]
  dsimp only
  rw [hclone]
  cases ha : env.acceptOk rest <;> simp only [ha]
  · simp
  · cases hw : sslWriteAll env { srv.socket with inbound := rest } (d.payload.take 4096)
      <;> simp [hw]

/-- witness for C4 as amended: with two datagrams queued, the handshake is
fed exactly the second one; the first is captured for the echo only. -/
theorem handle_client_handshake_after_first_witness :
    (Server.handle_client envBase srvSecTwo).handshakeInput
      = [{ payload := [9, 9], src := addrClient }] ∧
    (Server.handle_client envBase srvSecTwo).captured
      = some (msgBytes.take 4096, addrClient) :=
  handle_client_handshake_after_first envBase srvSecTwo
    { keyPath := "key.pem", certPath := "cert.pem" } rfl
    { payload := msgBytes, src := addrClient }
    [{ payload := [9, 9], src := addrClient }] rfl rfl

/-- counterexample to C1: with security enabled and a failing private-key
load, `Server.init` panics — it does not return an error value (the claim
names a returned `CertLoadFailed` error), and no Server is constructed.
The paths involved are the fixed `"key.pem"`/`"cert.pem"`; the config
carries no certificate or key paths at all. -/
theorem server_init_certload_panics_cex :
    Server.init envKeyFail confSec = RustOutcome.panicked "set_private_key_file failed" ∧
    RustOutcome.isErr (Server.init envKeyFail confSec) = false ∧
    RustOutcome.isOk (Server.init envKeyFail confSec) = false :=
  ⟨rfl, rfl, rfl⟩

/-- C1 as amended: with the security flag set, if loading the private key
or the certificate from the fixed paths `"key.pem"` and `"cert.pem"`
fails, `Server.init` panics before any Server value is constructed, and
certificate loading plays no part in `handle_client` — the failure can
only occur at initialization, never during a later data exchange. -/
theorem server_init_certload_fatal (env : NetEnv) (conf : Config)
    (hd : conf.use_dtls = true)
    (la : SocketAddr) (hb : env.bind ("[::]:" ++ toString conf.port) = some la)
    (hbuild : env.acceptorBuilderOk = true)
    (hfail : env.keyLoadOk "key.pem" = false ∨ env.certLoadOk "cert.pem" = false) :
    (∃ m, Server.init env conf = RustOutcome.panicked m) ∧
    RustOutcome.isOk (Server.init env conf) = false ∧
    ∀ (srv : Server) (kf cf : String → Bool),
      Server.handle_client { env with keyLoadOk := kf, certLoadOk := cf } srv
        = Server.handle_client env srv := by
  have hpan : ∃ m, Server.init env conf = RustOutcome.panicked m := by
    simp only [Server.init]
    rw [hb, hd]
    cases hk : env.keyLoadOk "key.pem" with
    | false => exact ⟨"set_private_key_file failed", by simp [hbuild, hk]⟩
    | true =>
        cases hfail with
        | inl h => rw [h] at hk; exact Bool.noConfusion hk
        | inr h => exact ⟨"set_certificate_chain_file failed", by simp [hbuild, hk, h]⟩
  obtain ⟨m, hm⟩ := hpan
  refine ⟨⟨m, hm⟩, ?_, fun srv kf cf => rfl⟩
  rw [hm]
  rfl

/-- witness for C1 as amended: the failing key load on the secured test
config constructs no Server. -/
theorem server_init_certload_fatal_witness :
    RustOutcome.isOk (Server.init envKeyFail confSec) = false :=
  (server_init_certload_fatal envKeyFail confSec rfl addrServer rfl rfl
    (Or.inl rfl)).2.1

/-- C2 at the failing input: a cleartext server holding one datagram from
the client address attempts the echo write with the captured payload, but
the write goes through `send` on the never-connected clone of the
listening socket, fails with the not-connected error, and transmits
nothing to the sender — `handle_client` cannot succeed and no echo
reaches the resolved sender address. -/
theorem handle_client_echo_never_reaches_sender :
    Server.handle_client envBase srvClear =
      { outcome := HCOutcome.err notConnectedErr,
        captured := some (msgBytes, addrClient),
        handshakeInput := [], echoAttempt := some msgBytes,
        transmitted := [] } := rfl

/-- C3 at the failing input: a full cleartext exchange — server and client
initialized from the test config, payload "Hello, Server!" sent and
delivered, `handle_client` run, its transmissions delivered back — ends
with the server's echo write failing on the unconnected socket clone and
the client receiving nothing at all, instead of the sent bytes. -/
theorem cleartext_roundtrip_delivers_nothing :
    cleartextExchange envBase confClear msgBytes 1024 =
      some ({ outcome := HCOutcome.err notConnectedErr,
              captured := some (msgBytes, addrClient),
              handshakeInput := [], echoAttempt := some msgBytes,
              transmitted := [] }, none) := rfl

end Crumb
